import Mathlib

/-!
Verification of the selectable option widget (`MdOption` in
`src/lib/core/option/option.ts`) and of the gulp package build task factory
(`createPackageBuildTasks`) that shares the same source file.

The embedding is shallow: the mutable component instance becomes an immutable
record, each method becomes a function from the record to the updated record
paired with the list of selection-change events it emits on the
`onSelectionChange` emitter, and `event.preventDefault()` is recorded as a
boolean flag in the result of `_handleKeydown`.  Change detection
(`markForCheck`) has no observable effect on the modelled state and is not
represented.  An emitted event carries `this`, i.e. the option as the listener
observes it after the mutation, so the `source` field of a modelled event holds
the post-state record.
-/

/-- MdOptgroup: the optional parent group of an option.  Only its `disabled`
flag is read by `MdOption`. -/
structure MdOptgroup where
  disabled : Bool
deriving DecidableEq, Repr

/-- State of a single `MdOption` component instance: the private fields of the
class.  The injected `group` reference is `Option`-valued because the
constructor marks it `@Optional()`. -/
structure MdOption where
  _selected : Bool
  _active : Bool
  _multiple : Bool
  _disableRipple : Bool
  _disabled : Bool
  _id : String
  group : Option MdOptgroup
deriving DecidableEq, Repr

/-- Event object emitted by MdOption when selected or deselected
(`MdOptionSelectionChange`). -/
structure MdOptionSelectionChange where
  source : MdOption
  isUserInput : Bool
deriving DecidableEq, Repr

/-- Getter `selected`. -/
def MdOption.selected (o : MdOption) : Bool := o._selected

/-- Getter `multiple`. -/
def MdOption.multiple (o : MdOption) : Bool := o._multiple

/-- Getter `id`. -/
def MdOption.id (o : MdOption) : String := o._id

/-- Getter `active`. -/
def MdOption.active (o : MdOption) : Bool := o._active

/-- Getter `disabled`: `(this.group && this.group.disabled) || this._disabled`.
A null `group` makes the left conjunct falsy. -/
def MdOption.disabled (o : MdOption) : Bool :=
  (match o.group with
   | some g => g.disabled
   | none => false) || o._disabled

/-- Method `_emitSelectionChangeEvent`: builds the event pushed on the
`onSelectionChange` emitter.  The source is `this`, observed post-mutation. -/
def MdOption._emitSelectionChangeEvent (o : MdOption) (isUserInput : Bool) :
    MdOptionSelectionChange :=
  { source := o, isUserInput := isUserInput }

/-- Method `select()`: sets `_selected` to true and emits one event with
`isUserInput = false`. -/
def MdOption.select (o : MdOption) : MdOption × List MdOptionSelectionChange :=
  let o1 : MdOption := { o with _selected := true }
  (o1, [o1._emitSelectionChangeEvent false])

/-- Method `deselect()`: sets `_selected` to false and emits one event with
`isUserInput = false`. -/
def MdOption.deselect (o : MdOption) : MdOption × List MdOptionSelectionChange :=
  let o1 : MdOption := { o with _selected := false }
  (o1, [o1._emitSelectionChangeEvent false])

/-- Method `_selectViaInteraction()`: when not disabled, `_selected` becomes
`multiple ? !_selected : true` and one event with `isUserInput = true` is
emitted; when disabled, nothing happens. -/
def MdOption._selectViaInteraction (o : MdOption) :
    MdOption × List MdOptionSelectionChange :=
  if o.disabled = false then
    let o1 : MdOption :=
      { o with _selected := if o.multiple = true then !o._selected else true }
    (o1, [o1._emitSelectionChangeEvent true])
  else
    (o, [])

/-- Modelled from the spec: the keycode constants `ENTER` and `SPACE` are
imported from a keyboard keycodes module that is not among the sources.  The
spec speaks of activation on the Enter or Space keys; the standard DOM keyCode
values carry that here. -/
def ENTER : Nat := 13

/-- Modelled from the spec: see `ENTER`. -/
def SPACE : Nat := 32

/-- Method `_handleKeydown(event)`: on ENTER or SPACE it runs
`_selectViaInteraction()` and calls `event.preventDefault()`; on any other
keyCode it does nothing.  The third component records whether
`preventDefault` was called. -/
def MdOption._handleKeydown (o : MdOption) (keyCode : Nat) :
    MdOption × List MdOptionSelectionChange × Bool :=
  if keyCode = ENTER ∨ keyCode = SPACE then
    let r := o._selectViaInteraction
    (r.1, r.2, true)
  else
    (o, [], false)

/-- Method `_getTabIndex()`. -/
def MdOption._getTabIndex (o : MdOption) : String :=
  if o.disabled = true then "-1" else "0"

/-- Construction of an `MdOption`: all private flags initialise to false and
`_id` is interpolated from the module-level counter, which the initialiser
post-increments (`md-option-${_uniqueIdCounter++}`).  The function returns the
new instance together with the updated counter. -/
def MdOption.construct (group : Option MdOptgroup) (counter : Nat) :
    MdOption × Nat :=
  ({ _selected := false, _active := false, _multiple := false,
     _disableRipple := false, _disabled := false,
     _id := "md-option-" ++ Nat.repr counter, group := group }, counter + 1)

/-- Sequential construction of several instances against the shared counter,
as successive component instantiations do at runtime. -/
def constructAll : List (Option MdOptgroup) → Nat → List MdOption × Nat
  | [], counter => ([], counter)
  | g :: gs, counter =>
    let r := MdOption.construct g counter
    let rest := constructAll gs r.2
    (r.1 :: rest.1, rest.2)

/-- Convenience builder for concrete test instances. -/
def mkOption (sel mult dis : Bool) (g : Option MdOptgroup) : MdOption :=
  { _selected := sel, _active := false, _multiple := mult,
    _disableRipple := false, _disabled := dis, _id := "md-option-0",
    group := g }

/-- C1: an enabled option in single mode that is already selected stays
selected after `_selectViaInteraction`; interactive selection in single mode
is idempotent on the selection state. -/
theorem selectViaInteraction_single_idempotent (o : MdOption)
    (hdis : o.disabled = false) (hmul : o.multiple = false)
    (hsel : o.selected = true) :
    (o._selectViaInteraction).1.selected = true := by
  simp [MdOption._selectViaInteraction, hdis, hmul, MdOption.selected]

/-- C1 witness: a concrete enabled, single-mode, already-selected option. -/
theorem selectViaInteraction_single_idempotent_witness :
    ((mkOption true false false none)._selectViaInteraction).1.selected = true :=
  selectViaInteraction_single_idempotent (mkOption true false false none)
    rfl rfl rfl

/-- C2: an enabled option in multiple mode has its selected state negated by
`_selectViaInteraction`. -/
theorem selectViaInteraction_multiple_toggles (o : MdOption)
    (hdis : o.disabled = false) (hmul : o.multiple = true) :
    (o._selectViaInteraction).1.selected = !o.selected := by
  simp [MdOption._selectViaInteraction, hdis, hmul, MdOption.selected]

/-- C2 witness: a concrete enabled multiple-mode option, both from the
selected and from the unselected state. -/
theorem selectViaInteraction_multiple_toggles_witness :
    ((mkOption true true false none)._selectViaInteraction).1.selected
        = !(mkOption true true false none).selected ∧
    ((mkOption false true false none)._selectViaInteraction).1.selected
        = !(mkOption false true false none).selected :=
  ⟨selectViaInteraction_multiple_toggles (mkOption true true false none) rfl rfl,
   selectViaInteraction_multiple_toggles (mkOption false true false none) rfl rfl⟩

/-- C3: a disabled option ignores interactive selection: `_selectViaInteraction`
leaves the state unchanged and emits nothing, and hence so does a click or any
keydown (Enter/Space included). -/
theorem disabled_ignores_interaction (o : MdOption)
    (hdis : o.disabled = true) :
    o._selectViaInteraction = (o, []) ∧
    ∀ k : Nat, (o._handleKeydown k).1 = o ∧ (o._handleKeydown k).2.1 = [] := by
  have hvia : o._selectViaInteraction = (o, []) := by
    simp [MdOption._selectViaInteraction, hdis]
  refine ⟨hvia, fun k => ?_⟩
  by_cases hk : k = ENTER ∨ k = SPACE
  · simp [MdOption._handleKeydown, hk, hvia]
  · simp [MdOption._handleKeydown, hk]

/-- C3 witness: a concrete disabled option, exercised through the interaction
path and through an Enter keydown. -/
theorem disabled_ignores_interaction_witness :
    (mkOption false false true none)._selectViaInteraction
        = (mkOption false false true none, []) ∧
    ((mkOption false false true none)._handleKeydown ENTER).2.1 = [] := by
  have h := disabled_ignores_interaction (mkOption false false true none) rfl
  exact ⟨h.1, (h.2 ENTER).2⟩

/-- C4: the `disabled` getter is true exactly when the option holds its own
`_disabled` flag or has a parent group whose `disabled` flag is set. -/
theorem disabled_getter_spec (o : MdOption) :
    o.disabled = true ↔
      (o._disabled = true ∨ ∃ g, o.group = some g ∧ g.disabled = true) := by
  unfold MdOption.disabled
  cases hg : o.group with
  | none => simp [hg]
  | some g =>
    simp only [hg, Bool.or_eq_true, Option.some.injEq]
    constructor
    · rintro (h | h)
      · exact Or.inr ⟨g, rfl, h⟩
      · exact Or.inl h
    · rintro (h | ⟨g1, hg1, h1⟩)
      · exact Or.inr h
      · cases hg1
        exact Or.inl h1

/-- C5: on ENTER or SPACE, `_handleKeydown` performs exactly the state change
and event emission of `_selectViaInteraction` (the pointer click path) and
calls `preventDefault`; on any other keyCode it changes nothing, emits nothing
and does not call `preventDefault`. -/
theorem handleKeydown_spec (o : MdOption) (k : Nat) :
    ((k = ENTER ∨ k = SPACE) →
      o._handleKeydown k
        = ((o._selectViaInteraction).1, (o._selectViaInteraction).2, true)) ∧
    (¬(k = ENTER ∨ k = SPACE) → o._handleKeydown k = (o, [], false)) := by
  constructor
  · intro h
    simp [MdOption._handleKeydown, h]
  · intro h
    simp [MdOption._handleKeydown, h]

/-- C5 witness: a concrete option pressed with ENTER and with an unrelated
keyCode. -/
theorem handleKeydown_spec_witness :
    (mkOption false false false none)._handleKeydown ENTER
      = (((mkOption false false false none)._selectViaInteraction).1,
         ((mkOption false false false none)._selectViaInteraction).2, true) ∧
    (mkOption false false false none)._handleKeydown 0
      = (mkOption false false false none, [], false) :=
  ⟨(handleKeydown_spec (mkOption false false false none) ENTER).1 (Or.inl rfl),
   (handleKeydown_spec (mkOption false false false none) 0).2 (by decide)⟩

/-- C7: `select()` sets selected and emits exactly one event, `deselect()`
clears selected and emits exactly one event, both with the option itself as
source and `isUserInput = false`; the interactive path emits its single event
with `isUserInput = true`. -/
theorem selection_events_spec (o : MdOption) :
    (o.select).1.selected = true ∧
    (o.select).2 = [{ source := (o.select).1, isUserInput := false }] ∧
    (o.deselect).1.selected = false ∧
    (o.deselect).2 = [{ source := (o.deselect).1, isUserInput := false }] ∧
    (o.disabled = false →
      (o._selectViaInteraction).2
        = [{ source := (o._selectViaInteraction).1, isUserInput := true }]) := by
  refine ⟨rfl, rfl, rfl, rfl, fun hdis => ?_⟩
  simp [MdOption._selectViaInteraction, hdis, MdOption._emitSelectionChangeEvent]

/-- C7 witness: a concrete enabled option run through the interactive path,
together with the unconditional select clause. -/
theorem selection_events_spec_witness :
    ((mkOption false false false none).select).1.selected = true ∧
    ((mkOption false false false none)._selectViaInteraction).2
      = [{ source := ((mkOption false false false none)._selectViaInteraction).1,
           isUserInput := true }] :=
  ⟨(selection_events_spec (mkOption false false false none)).1,
   (selection_events_spec (mkOption false false false none)).2.2.2.2 rfl⟩

/-- C8 counterexample: calling `select()` on an already-selected option leaves
`selected` at the value it already had and still emits a selection-change
event, so events are not emitted only on actual toggles. -/
theorem select_emits_without_toggle :
    ((mkOption true false false none).select).1.selected
        = (mkOption true false false none).selected ∧
    ((mkOption true false false none).select).2 ≠ [] := by
  decide

/-- C8 amended: `select()` and `deselect()` always emit exactly one
selection-change event, whether or not the selected state actually changes,
and `_selectViaInteraction` emits exactly one event when the option is enabled
and none when it is disabled. -/
theorem selection_event_emission_count (o : MdOption) :
    (o.select).2.length = 1 ∧
    (o.deselect).2.length = 1 ∧
    (o._selectViaInteraction).2.length = (if o.disabled = true then 0 else 1) := by
  refine ⟨rfl, rfl, ?_⟩
  by_cases hdis : o.disabled = true
  · simp [MdOption._selectViaInteraction, hdis]
  · simp only [Bool.not_eq_true] at hdis
    simp [MdOption._selectViaInteraction, hdis]

/-- C10: the programmatic operations ignore the disabled state: even on a
disabled option, `select()` selects and emits, `deselect()` deselects and
emits, while the interactive path does nothing. -/
theorem programmatic_ignores_disabled (o : MdOption)
    (hdis : o.disabled = true) :
    (o.select).1.selected = true ∧ (o.select).2.length = 1 ∧
    (o.deselect).1.selected = false ∧ (o.deselect).2.length = 1 ∧
    o._selectViaInteraction = (o, []) :=
  ⟨rfl, rfl, rfl, rfl, by simp [MdOption._selectViaInteraction, hdis]⟩

/-- C10 witness: a concrete option disabled through its own flag. -/
theorem programmatic_ignores_disabled_witness :
    ((mkOption false false true none).select).1.selected = true ∧
    (mkOption false false true none)._selectViaInteraction
      = (mkOption false false true none, []) := by
  have h := programmatic_ignores_disabled (mkOption false false true none) rfl
  exact ⟨h.1, h.2.2.2.2⟩

/-- Numeric value of a decimal digit character. -/
def digitVal (c : Char) : Nat := c.toNat - 48

/-- Value of a run of decimal digit characters read left to right on top of an
accumulator. -/
def readDigits (cs : List Char) (acc : Nat) : Nat :=
  cs.foldl (fun a c => a * 10 + digitVal c) acc

theorem digitVal_digitChar : ∀ m, m < 10 → digitVal (Nat.digitChar m) = m := by
  decide

theorem readDigits_append (l1 l2 : List Char) (acc : Nat) :
    readDigits (l1 ++ l2) acc = readDigits l2 (readDigits l1 acc) := by
  simp [readDigits, List.foldl_append]

theorem toDigitsCore_append (fuel : Nat) : ∀ (n : Nat) (cs : List Char),
    Nat.toDigitsCore 10 fuel n cs = Nat.toDigitsCore 10 fuel n [] ++ cs := by
  induction fuel with
  | zero => intro n cs; simp [Nat.toDigitsCore]
  | succ fuel ih =>
    intro n cs
    simp only [Nat.toDigitsCore]
    by_cases h : n / 10 = 0
    · simp [h]
    · simp only [if_neg h]
      rw [ih (n / 10) (Nat.digitChar (n % 10) :: cs),
        ih (n / 10) [Nat.digitChar (n % 10)], List.append_assoc]
      rfl

theorem readDigits_toDigitsCore (fuel : Nat) : ∀ n : Nat, n < fuel →
    readDigits (Nat.toDigitsCore 10 fuel n []) 0 = n := by
  induction fuel with
  | zero => intro n hn; omega
  | succ fuel ih =>
    intro n hn
    simp only [Nat.toDigitsCore]
    by_cases h : n / 10 = 0
    · have hlt : n < 10 := by omega
      have hmod : n % 10 = n := Nat.mod_eq_of_lt hlt
      simp [h, readDigits, hmod, digitVal_digitChar n hlt]
    · simp only [if_neg h]
      have hpos : 0 < n := by
        rcases Nat.eq_zero_or_pos n with h0 | h0
        · subst h0; simp at h
        · exact h0
      have hdiv : n / 10 < n := Nat.div_lt_self hpos (by norm_num)
      rw [toDigitsCore_append fuel (n / 10) [Nat.digitChar (n % 10)],
        readDigits_append, ih (n / 10) (by omega)]
      have hm : n % 10 < 10 := Nat.mod_lt n (by norm_num)
      simp only [readDigits, List.foldl_cons, List.foldl_nil,
        digitVal_digitChar (n % 10) hm]
      omega

/-- Injectivity of the decimal rendering used by the id initialiser. -/
theorem natRepr_inj : ∀ m n : Nat, Nat.repr m = Nat.repr n → m = n := by
  intro m n h
  have hd : Nat.toDigits 10 m = Nat.toDigits 10 n := congrArg String.data h
  have hm := readDigits_toDigitsCore (m + 1) m (Nat.lt_succ_self m)
  have hn := readDigits_toDigitsCore (n + 1) n (Nat.lt_succ_self n)
  unfold Nat.toDigits at hd
  rw [← hm, ← hn, hd]

/-- Injectivity of the full generated identifier. -/
theorem mdOptionId_inj : ∀ m n : Nat,
    "md-option-" ++ Nat.repr m = "md-option-" ++ Nat.repr n → m = n := by
  intro m n h
  apply natRepr_inj
  have hd := congrArg String.data h
  simp only [String.data_append] at hd
  exact String.ext (List.append_cancel_left hd)

theorem constructAll_map_id (gs : List (Option MdOptgroup)) : ∀ c : Nat,
    ((constructAll gs c).1).map MdOption.id
      = (List.range gs.length).map (fun i => "md-option-" ++ Nat.repr (c + i)) := by
  induction gs with
  | nil => intro c; rfl
  | cons g gs ih =>
    intro c
    simp only [constructAll, MdOption.construct, List.map_cons,
      List.length_cons, List.range_succ_eq_map, List.map_map, List.cons.injEq]
    refine ⟨?_, ?_⟩
    · simp [MdOption.id]
    · rw [ih (c + 1)]
      apply List.map_congr_left
      intro i hi
      simp only [Function.comp_apply, Nat.succ_eq_add_one]
      have h1 : c + 1 + i = c + (i + 1) := by omega
      rw [h1]

/-- C6: each construction takes the current counter value into the id
`md-option-N` and increments the counter, and any run of sequential
constructions therefore yields pairwise distinct identifiers. -/
theorem constructed_ids_unique (g : Option MdOptgroup) (c : Nat)
    (gs : List (Option MdOptgroup)) :
    (MdOption.construct g c).1.id = "md-option-" ++ Nat.repr c ∧
    (MdOption.construct g c).2 = c + 1 ∧
    ((constructAll gs c).1).Pairwise (fun a b => a.id ≠ b.id) := by
  refine ⟨rfl, rfl, ?_⟩
  have h1 : (((constructAll gs c).1).map MdOption.id).Pairwise (· ≠ ·) := by
    rw [constructAll_map_id gs c, List.pairwise_map]
    refine (List.pairwise_lt_range gs.length).imp ?_
    intro i j hij heq
    have := mdOptionId_inj (c + i) (c + j) heq
    omega
  exact (List.pairwise_map).mp h1

/-- Options record passed to `createPackageBuildTasks`; an absent options
object leaves `useSecondaryEntryPoints` falsy. -/
structure PackageTaskOptions where
  useSecondaryEntryPoints : Bool
deriving DecidableEq, Repr

/-- External tools a registered gulp task body delegates to.  The boolean on
the compiler, bundler and release constructors records whether the body also
processes the secondary entry points, as `options.useSecondaryEntryPoints`
selects in the source. -/
inductive ExternalTool where
  | tscCompile (secondaryEntryPoints : Bool)
  | tscCompileTests
  | buildBundles (secondaryEntryPoints : Bool)
  | buildScss
  | copyStyles
  | minifyHtml
  | inlineResources
  | composeRelease (secondaryEntryPoints : Bool)
  | watchFiles
deriving DecidableEq, Repr

/-- Step of a `sequenceTask` argument list: either a single task name or a
bracketed group of task names that run together. -/
inductive SeqStep where
  | single (taskName : String)
  | parallel (taskNames : List String)
deriving DecidableEq, Repr

/-- Body of a registered gulp task: a `sequenceTask` chain, a plain function
delegating to an external tool, a bare list of dependency tasks, or dependency
tasks followed by a delegating function. -/
inductive TaskBody where
  | sequence (steps : List SeqStep)
  | runTool (tool : ExternalTool)
  | aggregate (deps : List String)
  | withDeps (deps : List String) (tool : ExternalTool)
deriving DecidableEq, Repr

/-- Function `createPackageBuildTasks(packageName, dependencies, options)`:
the gulp registry entries it creates, in registration order. -/
def createPackageBuildTasks (packageName : String) (dependencies : List String)
    (options : PackageTaskOptions) : List (String × TaskBody) :=
  [ (packageName ++ ":clean-build",
      TaskBody.sequence
        [SeqStep.single "clean", SeqStep.single (packageName ++ ":build")]),
    (packageName ++ ":build",
      TaskBody.sequence
        (dependencies.map (fun pkgName => SeqStep.single (pkgName ++ ":build")) ++
         [SeqStep.parallel
            [packageName ++ ":build:esm", packageName ++ ":assets"],
          SeqStep.single (packageName ++ ":assets:inline"),
          SeqStep.single (packageName ++ ":build:bundles")])),
    (packageName ++ ":build-tests",
      TaskBody.sequence
        (dependencies.map
           (fun pkgName => SeqStep.single (pkgName ++ ":build-tests")) ++
         [SeqStep.parallel
            [packageName ++ ":build:esm:tests", packageName ++ ":assets"],
          SeqStep.single (packageName ++ ":assets:inline")])),
    (packageName ++ ":build-release:clean",
      TaskBody.sequence
        [SeqStep.single "clean",
         SeqStep.single (packageName ++ ":build-release")]),
    (packageName ++ ":build-release",
      TaskBody.withDeps [packageName ++ ":build"]
        (ExternalTool.composeRelease options.useSecondaryEntryPoints)),
    (packageName ++ ":build:esm",
      TaskBody.runTool (ExternalTool.tscCompile options.useSecondaryEntryPoints)),
    (packageName ++ ":build:esm:tests",
      TaskBody.runTool ExternalTool.tscCompileTests),
    (packageName ++ ":build:bundles",
      TaskBody.runTool (ExternalTool.buildBundles options.useSecondaryEntryPoints)),
    (packageName ++ ":assets",
      TaskBody.aggregate
        [packageName ++ ":assets:scss", packageName ++ ":assets:copy-styles",
         packageName ++ ":assets:html"]),
    (packageName ++ ":assets:scss", TaskBody.runTool ExternalTool.buildScss),
    (packageName ++ ":assets:copy-styles",
      TaskBody.runTool ExternalTool.copyStyles),
    (packageName ++ ":assets:html", TaskBody.runTool ExternalTool.minifyHtml),
    (packageName ++ ":assets:inline",
      TaskBody.runTool ExternalTool.inlineResources),
    (packageName ++ ":watch",
      TaskBody.withDeps (dependencies.map (fun pkgName => pkgName ++ ":watch"))
        ExternalTool.watchFiles) ]

/-- Name suffixes of every task the factory registers, in registration
order. -/
def packageTaskSuffixes : List String :=
  [":clean-build", ":build", ":build-tests", ":build-release:clean",
   ":build-release", ":build:esm", ":build:esm:tests", ":build:bundles",
   ":assets", ":assets:scss", ":assets:copy-styles", ":assets:html",
   ":assets:inline", ":watch"]

theorem createPackageBuildTasks_names (p : String) (deps : List String)
    (opts : PackageTaskOptions) :
    (createPackageBuildTasks p deps opts).map Prod.fst
      = packageTaskSuffixes.map (fun s => p ++ s) := by
  simp [createPackageBuildTasks, packageTaskSuffixes]

theorem string_append_left_cancel : ∀ p a b : String, p ++ a = p ++ b → a = b := by
  intro p a b h
  have hd := congrArg String.data h
  simp only [String.data_append] at hd
  exact String.ext (List.append_cancel_left hd)

/-- Whether the registry holds a task of the given name whose body is a plain
delegation to an external tool. -/
def delegatesToTool (registry : List (String × TaskBody)) (taskName : String) :
    Bool :=
  match registry.lookup taskName with
  | some (TaskBody.runTool _) => true
  | _ => false

/-- C9 counterexample: for the concrete package `material` with dependency
`cdk`, no task named `clean` (nor `material:clean`) is registered at all, so
the clean step is not registered as a named task delegating to an external
tool; the factory sequences refer to a `clean` task defined elsewhere. -/
theorem no_clean_task_registered :
    (createPackageBuildTasks "material" ["cdk"]
        { useSecondaryEntryPoints := false }).lookup "clean" = none ∧
    (createPackageBuildTasks "material" ["cdk"]
        { useSecondaryEntryPoints := false }).lookup "material:clean" = none ∧
    delegatesToTool
      (createPackageBuildTasks "material" ["cdk"]
        { useSecondaryEntryPoints := false }) "clean" = false := by
  decide

/-- C9 amended: the factory registers pairwise distinct task names, none of
them `clean`; the `<packageName>:build` task sequences the `:build` task of
every dependency in list order, then the ESM compile and asset steps together,
then the asset-inline step, then the bundle step; and the compile, asset-copy,
inline, bundle and watch steps are registered as named tasks delegating to
external tools. -/
theorem createPackageBuildTasks_spec (p : String) (deps : List String)
    (opts : PackageTaskOptions) :
    ((createPackageBuildTasks p deps opts).map Prod.fst).Pairwise (· ≠ ·) ∧
    (∀ nm ∈ (createPackageBuildTasks p deps opts).map Prod.fst, nm ≠ "clean") ∧
    (p ++ ":build",
      TaskBody.sequence
        (deps.map (fun d => SeqStep.single (d ++ ":build")) ++
         [SeqStep.parallel [p ++ ":build:esm", p ++ ":assets"],
          SeqStep.single (p ++ ":assets:inline"),
          SeqStep.single (p ++ ":build:bundles")]))
      ∈ createPackageBuildTasks p deps opts ∧
    (p ++ ":build:esm",
      TaskBody.runTool (ExternalTool.tscCompile opts.useSecondaryEntryPoints))
      ∈ createPackageBuildTasks p deps opts ∧
    (p ++ ":assets:copy-styles", TaskBody.runTool ExternalTool.copyStyles)
      ∈ createPackageBuildTasks p deps opts ∧
    (p ++ ":assets:inline", TaskBody.runTool ExternalTool.inlineResources)
      ∈ createPackageBuildTasks p deps opts ∧
    (p ++ ":build:bundles",
      TaskBody.runTool (ExternalTool.buildBundles opts.useSecondaryEntryPoints))
      ∈ createPackageBuildTasks p deps opts ∧
    (p ++ ":watch",
      TaskBody.withDeps (deps.map (fun d => d ++ ":watch"))
        ExternalTool.watchFiles)
      ∈ createPackageBuildTasks p deps opts := by
  refine ⟨?_, ?_, ?_, ?_, ?_, ?_, ?_, ?_⟩
  · rw [createPackageBuildTasks_names, List.pairwise_map]
    have hsuf : packageTaskSuffixes.Pairwise (· ≠ ·) := by decide
    exact hsuf.imp fun hne heq => hne (string_append_left_cancel p _ _ heq)
  · intro nm hmem
    rw [createPackageBuildTasks_names] at hmem
    obtain ⟨s, hs, rfl⟩ := List.mem_map.mp hmem
    have hlen : 5 < s.length := by
      fin_cases hs <;> decide
    intro heq
    have hl := congrArg String.length heq
    simp only [String.length_append] at hl
    have hclean : 5 = String.length "clean" := by decide
    omega
  · simp [createPackageBuildTasks]
  · simp [createPackageBuildTasks]
  · simp [createPackageBuildTasks]
  · simp [createPackageBuildTasks]
  · simp [createPackageBuildTasks]
  · simp [createPackageBuildTasks]
